import Mathlib

/-!
Verification of the Age-of-War battle solver (`src/age_of_war.py`).

The Python program models six unit kinds with a fixed advantage relation,
a `Battle` that doubles the attacker's count on advantage and floor-halves
it on disadvantage, and a `WarSimulation` that enumerates permutations of
the attacking army (in `itertools.permutations` order) looking for an
arrangement with at least `REQUIRED_WINS = 3` wins.

All counts are modelled as `Int` (Python's arbitrary-precision integers);
Python's floor division `//` is `Int.fdiv`.
-/

namespace AgeOfWar

/-- `UnitType` enum from the source (six closed kinds). -/
inductive UnitType where
  | militia
  | spearmen
  | lightCavalry
  | heavyCavalry
  | footArcher
  | cavalryArcher
deriving DecidableEq, Repr

/-- `BattleOutcome` enum from the source. -/
inductive BattleOutcome where
  | win
  | draw
  | loss
deriving DecidableEq, Repr

/-- Per-kind advantage lists: the `get_advantages` method of each `Unit`
subclass (`Militia`, `Spearmen`, `LightCavalry`, `HeavyCavalry`,
`FootArcher`, `CavalryArcher`). -/
def get_advantages : UnitType → List UnitType
  | .militia => [.spearmen, .lightCavalry]
  | .spearmen => [.lightCavalry, .heavyCavalry]
  | .lightCavalry => [.footArcher, .cavalryArcher]
  | .heavyCavalry => [.militia, .footArcher, .lightCavalry]
  | .footArcher => [.militia, .cavalryArcher]
  | .cavalryArcher => [.spearmen, .heavyCavalry]

/-- A `Unit` instance: in the source each subclass carries only its type tag
and an integer count. -/
structure Unit where
  unit_type : UnitType
  count : Int
deriving DecidableEq, Repr

/-- `Unit.has_advantage_over`: `other_unit.unit_type in self.get_advantages()`. -/
def Unit.has_advantage_over (self other : Unit) : Bool :=
  decide (other.unit_type ∈ get_advantages self.unit_type)

/-- The advantage relation between kinds, as the spec names it: `beats a b`
holds when kind `a`'s advantage list contains kind `b`. -/
def beats (a b : UnitType) : Prop :=
  b ∈ get_advantages a

instance (a b : UnitType) : Decidable (beats a b) :=
  inferInstanceAs (Decidable (b ∈ get_advantages a))

/-- `UnitFactory._unit_classes`: the lookup table from kind to constructor.
Every kind of the closed enum is present. -/
def UnitFactory.unit_classes : UnitType → Option (Int → Unit)
  | .militia => some (fun c => ⟨.militia, c⟩)
  | .spearmen => some (fun c => ⟨.spearmen, c⟩)
  | .lightCavalry => some (fun c => ⟨.lightCavalry, c⟩)
  | .heavyCavalry => some (fun c => ⟨.heavyCavalry, c⟩)
  | .footArcher => some (fun c => ⟨.footArcher, c⟩)
  | .cavalryArcher => some (fun c => ⟨.cavalryArcher, c⟩)

/-- `UnitFactory.create_unit`: looks up the class for the kind, raising
`ValueError` only when the lookup fails; the count is passed through
unchecked. -/
def UnitFactory.create_unit (unit_type : UnitType) (count : Int) :
    Except String Unit :=
  match UnitFactory.unit_classes unit_type with
  | some ctor => Except.ok (ctor count)
  | none => Except.error "Unknown unit type"

/-- `Battle.ADVANTAGE_MULTIPLIER = 2`. -/
def ADVANTAGE_MULTIPLIER : Int := 2

/-- A `Battle` between an attacker and a defender unit. -/
structure Battle where
  attacker : Unit
  defender : Unit
deriving DecidableEq, Repr

/-- `Battle._get_effective_count`: double the attacker's count on advantage,
floor-divide it by the multiplier on disadvantage, else leave it. -/
def Battle.get_effective_count (b : Battle) : Int :=
  if b.attacker.has_advantage_over b.defender then
    b.attacker.count * ADVANTAGE_MULTIPLIER
  else if b.defender.has_advantage_over b.attacker then
    Int.fdiv b.attacker.count ADVANTAGE_MULTIPLIER
  else
    b.attacker.count

/-- `Battle._calculate_outcome`: compare the effective attacker count with
the defender count. -/
def Battle.calculate_outcome (b : Battle) : BattleOutcome :=
  let effective_attacker_count := b.get_effective_count
  let defender_count := b.defender.count
  if effective_attacker_count > defender_count then BattleOutcome.win
  else if effective_attacker_count = defender_count then BattleOutcome.draw
  else BattleOutcome.loss

/-- `Battle.outcome` property (computed once in `__init__`, a pure function
of the two units). -/
def Battle.outcome (b : Battle) : BattleOutcome :=
  b.calculate_outcome

/-- An `Army`: an ordered list of platoons. -/
structure Army where
  platoons : List Unit
deriving DecidableEq, Repr

/-- `Army.get_platoon_count`. -/
def Army.get_platoon_count (a : Army) : Nat :=
  a.platoons.length

/-- One selection step: every way to pick one element of the list, paired
with the remaining elements in their original order, in position order.
This is the recursion scheme of `itertools.permutations`. -/
def picks {α : Type} : List α → List (α × List α)
  | [] => []
  | a :: as => (a, as) :: (picks as).map (fun p => (p.1, a :: p.2))

/-- Fueled enumeration of permutations in `itertools.permutations` order:
lexicographic by the sequence of source positions picked. -/
def permsAux {α : Type} : Nat → List α → List (List α)
  | 0, _ => [[]]
  | n + 1, l => (picks l).flatMap (fun p => (permsAux n p.2).map (fun rest => p.1 :: rest))

/-- `itertools.permutations` of a list, as the ordered list of all its
permutations (positions distinguishable, duplicates not suppressed). -/
def itertoolsPermutations {α : Type} (l : List α) : List (List α) :=
  permsAux l.length l

/-- `WarSimulation.REQUIRED_WINS = 3`. -/
def REQUIRED_WINS : Nat := 3

/-- A validated `WarSimulation` holding the two armies. -/
structure WarSimulation where
  attacking_army : Army
  defending_army : Army
deriving Repr

/-- `WarSimulation.__init__` together with `_validate_armies`: constructing a
simulation raises `ValueError` when the platoon counts differ, before any
search work. -/
def WarSimulation.make (attacking_army defending_army : Army) :
    Except String WarSimulation :=
  if attacking_army.get_platoon_count ≠ defending_army.get_platoon_count then
    Except.error "Armies must have the same number of platoons"
  else
    Except.ok ⟨attacking_army, defending_army⟩

/-- `WarSimulation._simulate_battles`: zip the two platoon lists and build a
`Battle` per position. -/
def WarSimulation.simulate_battles (attacking_platoons defending_platoons : List Unit) :
    List Battle :=
  (attacking_platoons.zip defending_platoons).map (fun p => Battle.mk p.1 p.2)

/-- `WarSimulation._is_winning_arrangement`: count the wins and compare with
`REQUIRED_WINS`. -/
def WarSimulation.is_winning_arrangement (battles : List Battle) : Bool :=
  REQUIRED_WINS ≤ battles.countP (fun battle => battle.outcome == BattleOutcome.win)

/-- `WarSimulation.find_winning_arrangement`: scan the permutations of the
attacking platoons in `itertools.permutations` order and return the first
winning arrangement as an `Army`, or `none`. -/
def WarSimulation.find_winning_arrangement (ws : WarSimulation) : Option Army :=
  ((itertoolsPermutations ws.attacking_army.platoons).find? (fun arrangement =>
      WarSimulation.is_winning_arrangement
        (WarSimulation.simulate_battles arrangement ws.defending_army.platoons))).map
    (fun arrangement => Army.mk arrangement)

/-- `WarSimulation.get_battle_report`: re-simulate the battles for a given
arrangement against the fixed defending army. -/
def WarSimulation.get_battle_report (ws : WarSimulation) (army_arrangement : Army) :
    List Battle :=
  WarSimulation.simulate_battles army_arrangement.platoons ws.defending_army.platoons

/-- Follows the spec's contract wording for §4.5/§4.4 (claim C8): the search
returns an `Option` of the qualifying `Army` paired with its full ordered
per-position outcome list. Defined for comparison with the source's
`find_winning_arrangement`, which returns the `Army` alone. -/
def WarSimulation.find_winning_arrangement_specShape (ws : WarSimulation) :
    Option (Army × List BattleOutcome) :=
  ((itertoolsPermutations ws.attacking_army.platoons).find? (fun arrangement =>
      WarSimulation.is_winning_arrangement
        (WarSimulation.simulate_battles arrangement ws.defending_army.platoons))).map
    (fun arrangement =>
      (Army.mk arrangement,
       (WarSimulation.simulate_battles arrangement ws.defending_army.platoons).map
         Battle.outcome))

/-- The spec's effective-count formula (§4.2, claim C1), stated directly in
terms of the `beats` relation: `c1*2` on advantage, `c1 // 2` (floor) on
disadvantage, `c1` otherwise. -/
def spec_effective (k1 k2 : UnitType) (c1 : Int) : Int :=
  if beats k1 k2 then c1 * 2
  else if beats k2 k1 then Int.fdiv c1 2
  else c1

/-! ### Helper lemmas on the permutation enumeration -/

/-- Every pick reassembles to a permutation of the original list. -/
theorem perm_of_mem_picks {α : Type} :
    ∀ {l : List α} {p : α × List α}, p ∈ picks l → (p.1 :: p.2).Perm l := by
  intro l
  induction l with
  | nil => intro p hp; simp [picks] at hp
  | cons a as ih =>
    intro p hp
    simp only [picks, List.mem_cons, List.mem_map] at hp
    rcases hp with h | ⟨q, hq, h⟩
    · subst h; exact List.Perm.refl _
    · subst h
      exact (List.Perm.swap a q.1 q.2).trans ((ih hq).cons a)

/-- Picking any member of the list, with the rest in order, occurs in `picks`. -/
theorem mem_picks_self_erase {α : Type} [DecidableEq α] :
    ∀ {l : List α} {a : α}, a ∈ l → (a, l.erase a) ∈ picks l := by
  intro l
  induction l with
  | nil => intro a ha; simp at ha
  | cons b bs ih =>
    intro a ha
    by_cases hab : a = b
    · subst hab
      simp [picks, List.erase_cons_head]
    · have hmem : a ∈ bs := by
        rcases List.mem_cons.1 ha with h | h
        · exact absurd h hab
        · exact h
      have herase : (b :: bs).erase a = b :: bs.erase a := by
        rw [List.erase_cons_tail]
        simp [hab, Ne.symm hab]
      rw [herase]
      simp only [picks, List.mem_cons, List.mem_map]
      exact Or.inr ⟨(a, bs.erase a), ih hmem, rfl⟩

/-- Soundness of the fueled enumeration: members are permutations. -/
theorem perm_of_mem_permsAux {α : Type} :
    ∀ (n : Nat) (l arr : List α), l.length = n → arr ∈ permsAux n l → arr.Perm l := by
  intro n
  induction n with
  | zero =>
    intro l arr hlen harr
    have : l = [] := List.length_eq_zero.1 hlen
    subst this
    simp [permsAux] at harr
    subst harr
    exact List.Perm.refl _
  | succ n ih =>
    intro l arr hlen harr
    simp only [permsAux, List.mem_flatMap, List.mem_map] at harr
    obtain ⟨p, hp, rest, hrest, rfl⟩ := harr
    have hperm := perm_of_mem_picks hp
    have hlen2 : p.2.length = n := by
      have := hperm.length_eq
      simp only [List.length_cons, hlen] at this
      omega
    exact ((ih p.2 rest hlen2 hrest).cons p.1).trans hperm

/-- Completeness of the fueled enumeration: every permutation is listed. -/
theorem mem_permsAux_of_perm {α : Type} [DecidableEq α] :
    ∀ (n : Nat) (l arr : List α), l.length = n → arr.Perm l → arr ∈ permsAux n l := by
  intro n
  induction n with
  | zero =>
    intro l arr hlen hperm
    have hl : l = [] := List.length_eq_zero.1 hlen
    subst hl
    have : arr = [] := List.length_eq_zero.1 hperm.length_eq
    subst this
    simp [permsAux]
  | succ n ih =>
    intro l arr hlen hperm
    cases arr with
    | nil =>
      have := hperm.length_eq
      simp [hlen] at this
    | cons a arr2 =>
      have ha : a ∈ l := hperm.mem_iff.1 (List.mem_cons_self a arr2)
      have harr2 : arr2.Perm (l.erase a) :=
        (hperm.trans (List.perm_cons_erase ha)).cons_inv
      have hlen2 : (l.erase a).length = n := by
        rw [List.length_erase_of_mem ha, hlen]
        omega
      simp only [permsAux, List.mem_flatMap, List.mem_map]
      exact ⟨(a, l.erase a), mem_picks_self_erase ha,
        arr2, ih (l.erase a) arr2 hlen2 harr2, rfl⟩

/-- `itertoolsPermutations` lists exactly the permutations of the input. -/
theorem mem_itertoolsPermutations {α : Type} [DecidableEq α] {arr l : List α} :
    arr ∈ itertoolsPermutations l ↔ arr.Perm l :=
  ⟨perm_of_mem_permsAux l.length l arr rfl,
   mem_permsAux_of_perm l.length l arr rfl⟩

/-- A successful `find?` splits the list into a failing front, the found
element, and a tail. -/
theorem find?_eq_some_split {α : Type} (p : α → Bool) :
    ∀ (l : List α) (a : α), l.find? p = some a →
      ∃ l₁ l₂, l = l₁ ++ a :: l₂ ∧ (∀ x ∈ l₁, p x = false) ∧ p a = true := by
  intro l
  induction l with
  | nil => intro a h; simp [List.find?] at h
  | cons b bs ih =>
    intro a h
    cases hb : p b with
    | true =>
      rw [List.find?_cons_of_pos _ hb] at h
      cases h
      exact ⟨[], bs, rfl, by simp, hb⟩
    | false =>
      rw [List.find?_cons_of_neg _ (by simp [hb])] at h
      obtain ⟨l₁, l₂, rfl, h1, h2⟩ := ih a h
      refine ⟨b :: l₁, l₂, rfl, ?_, h2⟩
      intro x hx
      rcases List.mem_cons.1 hx with h | h
      · subst h; exact hb
      · exact h1 x h

/-! ### Claim theorems -/

/-- C1: for any attacker group `(k1, c1)` and defender group `(k2, c2)` with
non-negative counts, the battle outcome is Win/Draw/Loss exactly as the
effective count (`c1*2` if `beats k1 k2`, `c1 // 2` if `beats k2 k1`, else
`c1`) compares to `c2`. -/
theorem battle_outcome_formula (k1 k2 : UnitType) (c1 c2 : Int)
    (h1 : 0 ≤ c1) (h2 : 0 ≤ c2) :
    ((Battle.mk ⟨k1, c1⟩ ⟨k2, c2⟩).outcome = BattleOutcome.win ↔
        spec_effective k1 k2 c1 > c2) ∧
    ((Battle.mk ⟨k1, c1⟩ ⟨k2, c2⟩).outcome = BattleOutcome.draw ↔
        spec_effective k1 k2 c1 = c2) ∧
    ((Battle.mk ⟨k1, c1⟩ ⟨k2, c2⟩).outcome = BattleOutcome.loss ↔
        spec_effective k1 k2 c1 < c2) := by
  have heff : (Battle.mk ⟨k1, c1⟩ ⟨k2, c2⟩).get_effective_count =
      spec_effective k1 k2 c1 := by
    simp only [Battle.get_effective_count, spec_effective, Unit.has_advantage_over,
      ADVANTAGE_MULTIPLIER, beats, decide_eq_true_eq]
  simp only [Battle.outcome, Battle.calculate_outcome, heff]
  rcases lt_trichotomy (spec_effective k1 k2 c1) c2 with h | h | h
  · simp [h, not_lt.2 (le_of_lt h), ne_of_lt h]
  · simp [h]
  · simp [h, not_lt.2 (le_of_lt h), (ne_of_lt h).symm]

/-- Witness for C1 at the spec's first concrete scenario:
Militia#30 attacking Spearmen#10 (advantage, effective 60). -/
theorem battle_outcome_formula_witness :
    ((Battle.mk ⟨UnitType.militia, 30⟩ ⟨UnitType.spearmen, 10⟩).outcome = BattleOutcome.win ↔
        spec_effective UnitType.militia UnitType.spearmen 30 > 10) ∧
    ((Battle.mk ⟨UnitType.militia, 30⟩ ⟨UnitType.spearmen, 10⟩).outcome = BattleOutcome.draw ↔
        spec_effective UnitType.militia UnitType.spearmen 30 = 10) ∧
    ((Battle.mk ⟨UnitType.militia, 30⟩ ⟨UnitType.spearmen, 10⟩).outcome = BattleOutcome.loss ↔
        spec_effective UnitType.militia UnitType.spearmen 30 < 10) :=
  battle_outcome_formula UnitType.militia UnitType.spearmen 30 10 (by decide) (by decide)

/-- C5: the advantage relation is asymmetric — no two units ever hold
advantage over each other simultaneously, whatever their counts. -/
theorem advantage_asymmetric (u v : Unit) :
    (u.has_advantage_over v && v.has_advantage_over u) = false := by
  rcases u with ⟨ut, uc⟩
  rcases v with ⟨vt, vc⟩
  cases ut <;> cases vt <;> rfl

/-- C6: constructing a `WarSimulation` fails with the validation error exactly
when the platoon counts differ, and succeeds (yielding the simulation that the
search will run on) exactly when they agree — so the construction-time failure
is distinguishable from the search's `none` result. -/
theorem warsim_construction_validates (a d : Army) :
    (a.get_platoon_count ≠ d.get_platoon_count ↔
        WarSimulation.make a d =
          Except.error "Armies must have the same number of platoons") ∧
    (a.get_platoon_count = d.get_platoon_count ↔
        WarSimulation.make a d = Except.ok ⟨a, d⟩) := by
  unfold WarSimulation.make
  by_cases h : a.get_platoon_count = d.get_platoon_count
  · simp [h]
  · simp [h]

/-- C7 counterexample: attacker Spearmen#1 against defender Militia#0 — the
defender has count 0 and the opposing count is 1 ≥ 1, yet the outcome is a
Draw (1 // 2 = 0 = 0), not a Win over the count-0 group as the claim states. -/
theorem zero_count_claim_counterexample :
    (Battle.mk ⟨UnitType.spearmen, 1⟩ ⟨UnitType.militia, 0⟩).outcome = BattleOutcome.draw ∧
    (Battle.mk ⟨UnitType.spearmen, 1⟩ ⟨UnitType.militia, 0⟩).outcome ≠ BattleOutcome.win := by
  decide

/-- C7 amended: a count-0 attacker always loses to a defender with count ≥ 1;
two count-0 groups always draw; a defender with count 0 loses to an attacker
with count ≥ 1 except when the defender's kind beats the attacker's (and the
attacker's kind does not beat the defender's) and the attacker count is
exactly 1, in which case the floor division yields 0 and the battle draws. -/
theorem zero_count_amended (k1 k2 : UnitType) (c : Int) (hc : 1 ≤ c) :
    (Battle.mk ⟨k1, 0⟩ ⟨k2, c⟩).outcome = BattleOutcome.loss ∧
    (Battle.mk ⟨k1, 0⟩ ⟨k2, 0⟩).outcome = BattleOutcome.draw ∧
    (Battle.mk ⟨k1, c⟩ ⟨k2, 0⟩).outcome =
      (if ¬ beats k1 k2 ∧ beats k2 k1 ∧ c = 1 then BattleOutcome.draw
       else BattleOutcome.win) := by
  refine ⟨?_, ?_, ?_⟩
  · have hng : ¬ ((0 : Int) > c) := by omega
    have hne : ¬ ((0 : Int) = c) := by omega
    by_cases h12 : k2 ∈ get_advantages k1 <;> by_cases h21 : k1 ∈ get_advantages k2 <;>
      simp [Battle.outcome, Battle.calculate_outcome, Battle.get_effective_count,
        Unit.has_advantage_over, ADVANTAGE_MULTIPLIER, h12, h21, hng, hne]
  · by_cases h12 : k2 ∈ get_advantages k1 <;> by_cases h21 : k1 ∈ get_advantages k2 <;>
      simp [Battle.outcome, Battle.calculate_outcome, Battle.get_effective_count,
        Unit.has_advantage_over, ADVANTAGE_MULTIPLIER, h12, h21]
  · by_cases h12 : k2 ∈ get_advantages k1
    · have hpos : c * 2 > 0 := by omega
      simp [Battle.outcome, Battle.calculate_outcome, Battle.get_effective_count,
        Unit.has_advantage_over, ADVANTAGE_MULTIPLIER, beats, h12, hpos]
    · by_cases h21 : k1 ∈ get_advantages k2
      · by_cases hc1 : c = 1
        · subst hc1
          have hf : Int.fdiv 1 2 = 0 := rfl
          simp [Battle.outcome, Battle.calculate_outcome, Battle.get_effective_count,
            Unit.has_advantage_over, ADVANTAGE_MULTIPLIER, beats, h12, h21, hf]
        · have h2 : Int.fdiv c 2 > 0 := by
            rw [Int.fdiv_eq_ediv c (by omega)]
            omega
          simp [Battle.outcome, Battle.calculate_outcome, Battle.get_effective_count,
            Unit.has_advantage_over, ADVANTAGE_MULTIPLIER, beats, h12, h21, hc1, h2]
      · have hpos : c > 0 := by omega
        simp [Battle.outcome, Battle.calculate_outcome, Battle.get_effective_count,
          Unit.has_advantage_over, ADVANTAGE_MULTIPLIER, beats, h12, h21, hpos]

/-- Witness for C7's amended theorem at `k1 = Spearmen`, `k2 = Militia`,
`c = 1` (the disadvantaged floor-to-zero case). -/
theorem zero_count_amended_witness :
    (Battle.mk ⟨UnitType.spearmen, 0⟩ ⟨UnitType.militia, 1⟩).outcome = BattleOutcome.loss ∧
    (Battle.mk ⟨UnitType.spearmen, 0⟩ ⟨UnitType.militia, 0⟩).outcome = BattleOutcome.draw ∧
    (Battle.mk ⟨UnitType.spearmen, 1⟩ ⟨UnitType.militia, 0⟩).outcome =
      (if ¬ beats UnitType.spearmen UnitType.militia ∧
          beats UnitType.militia UnitType.spearmen ∧ (1 : Int) = 1 then BattleOutcome.draw
       else BattleOutcome.win) :=
  zero_count_amended UnitType.spearmen UnitType.militia 1 (by decide)

/-- C9 counterexample: `create_unit` accepts a negative count — Militia with
count −5 is constructed successfully (no error) and participates in battles,
producing an outcome. -/
theorem create_unit_negative_counterexample :
    UnitFactory.create_unit UnitType.militia (-5) =
      Except.ok ⟨UnitType.militia, -5⟩ ∧
    (Battle.mk ⟨UnitType.militia, -5⟩ ⟨UnitType.spearmen, 3⟩).outcome = BattleOutcome.loss := by
  constructor
  · rfl
  · decide

/-- C9 amended: `create_unit` validates only the kind, never the count — for
every kind of the closed enum and every integer count (negative included) it
returns a usable unit carrying that kind and count unchanged. -/
theorem create_unit_accepts_any_count (t : UnitType) (c : Int) :
    UnitFactory.create_unit t c = Except.ok ⟨t, c⟩ := by
  cases t <;> rfl

/-- C2: the search (a total Lean function, hence terminating and never
raising) returns either `none` or an army whose platoons are a permutation of
the attacking army's platoons and whose battle report against the defending
army's fixed order has at least `REQUIRED_WINS` wins. -/
theorem find_winning_arrangement_sound (ws : WarSimulation) (army : Army)
    (h : ws.find_winning_arrangement = some army) :
    army.platoons.Perm ws.attacking_army.platoons ∧
      REQUIRED_WINS ≤ (ws.get_battle_report army).countP
        (fun battle => battle.outcome == BattleOutcome.win) := by
  unfold WarSimulation.find_winning_arrangement at h
  cases hf : (itertoolsPermutations ws.attacking_army.platoons).find? (fun arrangement =>
      WarSimulation.is_winning_arrangement
        (WarSimulation.simulate_battles arrangement ws.defending_army.platoons)) with
  | none => rw [hf] at h; simp at h
  | some arr =>
    rw [hf] at h
    simp only [Option.map_some'] at h
    cases h
    refine ⟨mem_itertoolsPermutations.1 (List.mem_of_find?_eq_some hf), ?_⟩
    have hp := List.find?_some hf
    simp only [WarSimulation.is_winning_arrangement, decide_eq_true_eq] at hp
    exact hp

/-- Witness for C2: a 3-vs-3 simulation where the first arrangement already
wins all three battles. -/
theorem find_winning_arrangement_sound_witness :
    (Army.mk [⟨UnitType.militia, 10⟩, ⟨UnitType.militia, 10⟩, ⟨UnitType.militia, 10⟩]).platoons.Perm
      (WarSimulation.mk
        ⟨[⟨UnitType.militia, 10⟩, ⟨UnitType.militia, 10⟩, ⟨UnitType.militia, 10⟩]⟩
        ⟨[⟨UnitType.spearmen, 1⟩, ⟨UnitType.spearmen, 1⟩, ⟨UnitType.spearmen, 1⟩]⟩).attacking_army.platoons ∧
      REQUIRED_WINS ≤
        ((WarSimulation.mk
            ⟨[⟨UnitType.militia, 10⟩, ⟨UnitType.militia, 10⟩, ⟨UnitType.militia, 10⟩]⟩
            ⟨[⟨UnitType.spearmen, 1⟩, ⟨UnitType.spearmen, 1⟩, ⟨UnitType.spearmen, 1⟩]⟩).get_battle_report
          (Army.mk [⟨UnitType.militia, 10⟩, ⟨UnitType.militia, 10⟩, ⟨UnitType.militia, 10⟩])).countP
          (fun battle => battle.outcome == BattleOutcome.win) :=
  find_winning_arrangement_sound
    (WarSimulation.mk
      ⟨[⟨UnitType.militia, 10⟩, ⟨UnitType.militia, 10⟩, ⟨UnitType.militia, 10⟩]⟩
      ⟨[⟨UnitType.spearmen, 1⟩, ⟨UnitType.spearmen, 1⟩, ⟨UnitType.spearmen, 1⟩]⟩)
    (Army.mk [⟨UnitType.militia, 10⟩, ⟨UnitType.militia, 10⟩, ⟨UnitType.militia, 10⟩])
    (by decide)

/-- C3: the enumeration is exhaustive — when the search returns `none`, no
permutation of the attacking platoons is a winning arrangement against the
defending army's fixed order. -/
theorem find_none_exhaustive (ws : WarSimulation)
    (h : ws.find_winning_arrangement = none) (arr : List Unit)
    (hperm : arr.Perm ws.attacking_army.platoons) :
    WarSimulation.is_winning_arrangement
      (WarSimulation.simulate_battles arr ws.defending_army.platoons) = false := by
  unfold WarSimulation.find_winning_arrangement at h
  rw [Option.map_eq_none'] at h
  have hnot := List.find?_eq_none.1 h arr (mem_itertoolsPermutations.2 hperm)
  simpa using hnot

/-- Witness for C3: three Spearmen#0 platoons can never beat three Militia#5
platoons; the search returns `none` and the original order indeed fails. -/
theorem find_none_exhaustive_witness :
    WarSimulation.is_winning_arrangement
      (WarSimulation.simulate_battles
        [⟨UnitType.spearmen, 0⟩, ⟨UnitType.spearmen, 0⟩, ⟨UnitType.spearmen, 0⟩]
        (WarSimulation.mk
          ⟨[⟨UnitType.spearmen, 0⟩, ⟨UnitType.spearmen, 0⟩, ⟨UnitType.spearmen, 0⟩]⟩
          ⟨[⟨UnitType.militia, 5⟩, ⟨UnitType.militia, 5⟩, ⟨UnitType.militia, 5⟩]⟩).defending_army.platoons) = false :=
  find_none_exhaustive
    (WarSimulation.mk
      ⟨[⟨UnitType.spearmen, 0⟩, ⟨UnitType.spearmen, 0⟩, ⟨UnitType.spearmen, 0⟩]⟩
      ⟨[⟨UnitType.militia, 5⟩, ⟨UnitType.militia, 5⟩, ⟨UnitType.militia, 5⟩]⟩)
    (by decide)
    [⟨UnitType.spearmen, 0⟩, ⟨UnitType.spearmen, 0⟩, ⟨UnitType.spearmen, 0⟩]
    (by decide)

/-- C4: the returned arrangement is the first qualifying one in the fixed
`itertools.permutations` enumeration order — everything enumerated before it
fails the win threshold, and the result itself meets it. Determinism is
inherent: `find_winning_arrangement` is a pure function of the two armies. -/
theorem find_first_in_enumeration_order (ws : WarSimulation) (army : Army)
    (h : ws.find_winning_arrangement = some army) :
    ∃ before after,
      itertoolsPermutations ws.attacking_army.platoons = before ++ army.platoons :: after ∧
      (∀ arr ∈ before,
        WarSimulation.is_winning_arrangement
          (WarSimulation.simulate_battles arr ws.defending_army.platoons) = false) ∧
      WarSimulation.is_winning_arrangement
        (WarSimulation.simulate_battles army.platoons ws.defending_army.platoons) = true := by
  unfold WarSimulation.find_winning_arrangement at h
  cases hf : (itertoolsPermutations ws.attacking_army.platoons).find? (fun arrangement =>
      WarSimulation.is_winning_arrangement
        (WarSimulation.simulate_battles arrangement ws.defending_army.platoons)) with
  | none => rw [hf] at h; simp at h
  | some arr =>
    rw [hf] at h
    simp only [Option.map_some'] at h
    cases h
    obtain ⟨l₁, l₂, heq, hfail, hok⟩ := find?_eq_some_split _ _ _ hf
    exact ⟨l₁, l₂, heq, hfail, hok⟩

/-- Witness for C4: attacking Militia #1/#100/#101 against Spearmen
#90/#1/#2 — the first two enumerated arrangements fail (Militia#1 cannot beat
Spearmen#90) and the third, `[#100, #1, #101]`, wins all three battles. -/
theorem find_first_in_enumeration_order_witness :
    ∃ before after,
      itertoolsPermutations
        (WarSimulation.mk
          ⟨[⟨UnitType.militia, 1⟩, ⟨UnitType.militia, 100⟩, ⟨UnitType.militia, 101⟩]⟩
          ⟨[⟨UnitType.spearmen, 90⟩, ⟨UnitType.spearmen, 1⟩, ⟨UnitType.spearmen, 2⟩]⟩).attacking_army.platoons =
        before ++
          (Army.mk [⟨UnitType.militia, 100⟩, ⟨UnitType.militia, 1⟩, ⟨UnitType.militia, 101⟩]).platoons :: after ∧
      (∀ arr ∈ before,
        WarSimulation.is_winning_arrangement
          (WarSimulation.simulate_battles arr
            (WarSimulation.mk
              ⟨[⟨UnitType.militia, 1⟩, ⟨UnitType.militia, 100⟩, ⟨UnitType.militia, 101⟩]⟩
              ⟨[⟨UnitType.spearmen, 90⟩, ⟨UnitType.spearmen, 1⟩, ⟨UnitType.spearmen, 2⟩]⟩).defending_army.platoons) = false) ∧
      WarSimulation.is_winning_arrangement
        (WarSimulation.simulate_battles
          (Army.mk [⟨UnitType.militia, 100⟩, ⟨UnitType.militia, 1⟩, ⟨UnitType.militia, 101⟩]).platoons
          (WarSimulation.mk
            ⟨[⟨UnitType.militia, 1⟩, ⟨UnitType.militia, 100⟩, ⟨UnitType.militia, 101⟩]⟩
            ⟨[⟨UnitType.spearmen, 90⟩, ⟨UnitType.spearmen, 1⟩, ⟨UnitType.spearmen, 2⟩]⟩).defending_army.platoons) = true :=
  find_first_in_enumeration_order
    (WarSimulation.mk
      ⟨[⟨UnitType.militia, 1⟩, ⟨UnitType.militia, 100⟩, ⟨UnitType.militia, 101⟩]⟩
      ⟨[⟨UnitType.spearmen, 90⟩, ⟨UnitType.spearmen, 1⟩, ⟨UnitType.spearmen, 2⟩]⟩)
    (Army.mk [⟨UnitType.militia, 100⟩, ⟨UnitType.militia, 1⟩, ⟨UnitType.militia, 101⟩])
    (by decide)

/-- C8 counterexample: at a simulation with a qualifying arrangement
(Militia#20 ×3 vs Spearmen#1 ×3), the value `find_winning_arrangement`
returns is `some` of an `Army` alone — type `Option Army` — carrying no
per-position outcome list, contrary to the claimed
`Option (Army × [ConfrontationOutcome])` result shape. -/
theorem search_returns_army_alone_counterexample :
    WarSimulation.find_winning_arrangement
      (WarSimulation.mk
        ⟨[⟨UnitType.militia, 20⟩, ⟨UnitType.militia, 20⟩, ⟨UnitType.militia, 20⟩]⟩
        ⟨[⟨UnitType.spearmen, 1⟩, ⟨UnitType.spearmen, 1⟩, ⟨UnitType.spearmen, 1⟩]⟩) =
      some (Army.mk [⟨UnitType.militia, 20⟩, ⟨UnitType.militia, 20⟩, ⟨UnitType.militia, 20⟩]) := by
  decide

/-- C8 amended: `find_winning_arrangement` returns only the qualifying
`Army`; the outcome list is recovered by the separate `get_battle_report`
call, and pairing the search result with the outcomes of its battle report
agrees exactly with the spec's contract-shaped search. -/
theorem find_result_pairs_with_report (ws : WarSimulation) :
    ws.find_winning_arrangement.map
        (fun army => (army, (ws.get_battle_report army).map Battle.outcome)) =
      ws.find_winning_arrangement_specShape := by
  unfold WarSimulation.find_winning_arrangement WarSimulation.find_winning_arrangement_specShape
  cases hf : (itertoolsPermutations ws.attacking_army.platoons).find? (fun arrangement =>
      WarSimulation.is_winning_arrangement
        (WarSimulation.simulate_battles arrangement ws.defending_army.platoons)) with
  | none => simp [hf]
  | some arr => simp [hf, WarSimulation.get_battle_report]

/-- C10: with fewer than `REQUIRED_WINS` platoons per (equal-length) side,
no arrangement can reach the threshold, so the search always returns
`none`. -/
theorem small_armies_return_none (ws : WarSimulation)
    (hlen : ws.attacking_army.get_platoon_count = ws.defending_army.get_platoon_count)
    (hsmall : ws.attacking_army.get_platoon_count < REQUIRED_WINS) :
    ws.find_winning_arrangement = none := by
  unfold WarSimulation.find_winning_arrangement
  rw [Option.map_eq_none', List.find?_eq_none]
  intro arr harr
  have hperm : arr.Perm ws.attacking_army.platoons := mem_itertoolsPermutations.1 harr
  have hlen2 : arr.length < REQUIRED_WINS := by
    rw [hperm.length_eq]
    exact hsmall
  simp only [WarSimulation.is_winning_arrangement, WarSimulation.simulate_battles,
    decide_eq_true_eq]
  intro hcontra
  have hle : ((arr.zip ws.defending_army.platoons).map
      (fun p => Battle.mk p.1 p.2)).countP (fun battle => battle.outcome == BattleOutcome.win) ≤
      arr.length := by
    calc ((arr.zip ws.defending_army.platoons).map
        (fun p => Battle.mk p.1 p.2)).countP (fun battle => battle.outcome == BattleOutcome.win) ≤
        ((arr.zip ws.defending_army.platoons).map (fun p => Battle.mk p.1 p.2)).length :=
        List.countP_le_length _
      _ = (arr.zip ws.defending_army.platoons).length := List.length_map _ _
      _ ≤ arr.length := by rw [List.length_zip]; omega
  omega

/-- Witness for C10: two 2-platoon armies — the search returns `none`. -/
theorem small_armies_return_none_witness :
    WarSimulation.find_winning_arrangement
      (WarSimulation.mk
        ⟨[⟨UnitType.militia, 50⟩, ⟨UnitType.militia, 50⟩]⟩
        ⟨[⟨UnitType.spearmen, 1⟩, ⟨UnitType.spearmen, 1⟩]⟩) = none :=
  small_armies_return_none
    (WarSimulation.mk
      ⟨[⟨UnitType.militia, 50⟩, ⟨UnitType.militia, 50⟩]⟩
      ⟨[⟨UnitType.spearmen, 1⟩, ⟨UnitType.spearmen, 1⟩]⟩)
    rfl
    (by decide)

end AgeOfWar
